import Mathlib

/-!
Verification of the access-control and path-resolution gateway of the
LibroyPuntoServer repository (`server.js`, handler for
`/epubs_content/:bookId/*`).

The JavaScript handler is shallowly embedded below:
* `validateToken` mirrors the token-validation block (lines 53-77 of
  `server.js`): the falsy check on the credential, `split('_')`, the
  combined length/book-id check, `parseInt(tokenParts[2], 10)` with the
  `isNaN || currentTime > expirationTimestamp` test, and the second
  (redundant) book-id comparison.  The four Spanish denial messages of the
  source are kept verbatim so that the distinct denial branches of the code
  stay distinguishable.
* `resolveEpubPath` mirrors the path-resolution block (lines 79-90):
  `path.join(__dirname, 'epubs_descomprimidos', bookId, relativePath)`
  followed by the `fullFilePath.startsWith(safeBase)` containment check.
  `posixJoin`/`posixNormalize` embed Node's `path.posix.join` and
  `path.posix.normalize` (segment splitting, dropping of `''` and `'.'`
  segments, `..` resolution with `allowAboveRoot` for relative inputs,
  handling of leading/trailing separators).
* `parseIntJs` embeds JavaScript `parseInt(s, 10)`: skip leading
  whitespace, optional sign, then the maximal leading run of decimal
  digits; `none` models `NaN`.

String operations are written as structural recursions over `List Char` so
that every definition evaluates by kernel reduction on concrete inputs.
-/

namespace LibroyPunto

/-- Character-level prefix test: `strPre pre s` holds when `pre` is a prefix
of `s`. -/
def strPre : List Char → List Char → Bool
  | [], _ => true
  | _ :: _, [] => false
  | a :: as, b :: bs => a = b && strPre as bs

/-- JS `s.startsWith(pre)` (`String.prototype.startsWith` with the receiver
first). -/
def jsStartsWith (s pre : String) : Bool :=
  strPre pre.data s.data

/-- Split a character list on a single separator character; like JS
`s.split(sep)`, always returns at least one (possibly empty) piece. -/
def splitOnChar (sep : Char) : List Char → List (List Char)
  | [] => [[]]
  | c :: rest =>
    let r := splitOnChar sep rest
    if c = sep then [] :: r
    else
      match r with
      | [] => [[c]]
      | h :: t => (c :: h) :: t

/-- JS `s.split(sep)` for a one-character separator, as used by
`userToken.split('_')`. -/
def jsSplit (s : String) (sep : Char) : List String :=
  (splitOnChar sep s.data).map String.mk

/-- Join character-list segments with a separator list between them. -/
def joinWith (sep : List Char) : List (List Char) → List Char
  | [] => []
  | [x] => x
  | x :: y :: xs => x ++ sep ++ joinWith sep (y :: xs)

/-- Whether a character list ends with the given character. -/
def endsWithChar (c : Char) (l : List Char) : Bool :=
  match l.getLast? with
  | some d => d = c
  | none => false

/-- Value of a list of decimal digit characters, most significant first. -/
def digitsToNat (l : List Char) : Nat :=
  l.foldl (fun n c => n * 10 + (c.toNat - 48)) 0

/-- Maximal leading run of decimal digits, as JS `parseInt` consumes after the
sign; `none` when there is no digit at all (the `NaN` case). -/
def parseDigits (l : List Char) : Option Nat :=
  if l.takeWhile Char.isDigit = [] then none
  else some (digitsToNat (l.takeWhile Char.isDigit))

/-- JS `parseInt(s, 10)` at the character level: leading whitespace skipped,
an optional single sign, then the maximal run of decimal digits; anything
after the digits is ignored; `none` models `NaN`. -/
def parseIntChars (l : List Char) : Option Int :=
  match l.dropWhile Char.isWhitespace with
  | [] => none
  | c :: rest =>
    if c = '-' then (parseDigits rest).map (fun n => -(n : Int))
    else if c = '+' then (parseDigits rest).map (fun n => (n : Int))
    else (parseDigits (c :: rest)).map (fun n => (n : Int))

/-- JS `parseInt(s, 10)`. -/
def parseIntJs (s : String) : Option Int :=
  parseIntChars s.data

/-- Outcome of the handler's token-validation block: either fall through to
path resolution (`allow`) or answer with an HTTP status and message. -/
inductive Decision where
  | allow : Decision
  | deny : Nat → String → Decision
deriving DecidableEq, Repr

/-- `server.js`: `'Acceso denegado: Token de usuario no proporcionado.'` -/
def msgMissing : String := "Acceso denegado: Token de usuario no proporcionado."

/-- `server.js`: `'Acceso denegado: Token inválido o no corresponde al libro.'`
(single message covering both the too-few-segments and the book-id-mismatch
cases of the combined check). -/
def msgInvalidOrMismatch : String := "Acceso denegado: Token inválido o no corresponde al libro."

/-- `server.js`: `'Acceso denegado: Token expirado o inválido.'` (single
message covering both the `isNaN` and the `currentTime > expirationTimestamp`
cases). -/
def msgExpiredOrInvalid : String := "Acceso denegado: Token expirado o inválido."

/-- `server.js`: `'Acceso denegado: Token no válido para este libro.'` (the
second, redundant book-id comparison). -/
def msgWrongBook : String := "Acceso denegado: Token no válido para este libro."

/-- The token-validation block of the `/epubs_content/:bookId/*` handler.
`userToken` is the value of `req.query.userToken || req.headers.authorization`
(`none` when neither is present); JS truthiness makes the empty string count
as absent.  `now` is `Date.now()`. -/
def validateToken (userToken : Option String) (bookId : String) (now : Int) : Decision :=
  match userToken with
  | none => .deny 403 msgMissing
  | some tok =>
    if tok = "" then .deny 403 msgMissing
    else if (jsSplit tok '_').length < 4 ∨ (jsSplit tok '_').getD 0 "" ≠ bookId then
      .deny 403 msgInvalidOrMismatch
    else
      match parseIntJs ((jsSplit tok '_').getD 2 "") with
      | none => .deny 403 msgExpiredOrInvalid
      | some expirationTimestamp =>
        if now > expirationTimestamp then .deny 403 msgExpiredOrInvalid
        else if (jsSplit tok '_').getD 0 "" ≠ bookId then .deny 403 msgWrongBook
        else .allow

/-- Segment resolution loop of Node's `normalizeString`: drop `''` and `'.'`
segments, resolve `'..'` by popping the previously kept segment, and when
there is nothing to pop keep the `'..'` only for relative paths
(`allowAboveRoot`).  `acc` holds the kept segments in reverse. -/
def normSegs (allow : Bool) : List (List Char) → List (List Char) → List (List Char)
  | acc, [] => acc.reverse
  | acc, s :: rest =>
    if s = [] ∨ s = ['.'] then normSegs allow acc rest
    else if s = ['.', '.'] then
      match acc with
      | [] => normSegs allow (if allow then [['.', '.']] else []) rest
      | a :: as =>
        if a = ['.', '.'] then
          normSegs allow (if allow then ['.', '.'] :: a :: as else a :: as) rest
        else normSegs allow as rest
    else normSegs allow (s :: acc) rest

/-- Node `path.posix.normalize` at the character level. -/
def normalizeChars (p : List Char) : List Char :=
  if p = [] then ['.']
  else
    let isAbs := strPre ['/'] p
    let trail := endsWithChar '/' p
    let body := joinWith ['/'] (normSegs (!isAbs) [] (splitOnChar '/' p))
    if body = [] then
      if isAbs then ['/'] else if trail then ['.', '/'] else ['.']
    else
      (if isAbs then ['/'] else []) ++ body ++ (if trail then ['/'] else [])

/-- Node `path.posix.normalize`. -/
def posixNormalize (p : String) : String :=
  String.mk (normalizeChars p.data)

/-- Node `path.posix.join`: drop empty arguments, join the rest with `/`,
normalize; `'.'` when nothing is left. -/
def posixJoin (parts : List String) : String :=
  match (parts.map String.data).filter (fun s => s ≠ []) with
  | [] => "."
  | nonEmpty => String.mk (normalizeChars (joinWith ['/'] nonEmpty))

/-- `server.js` line 80: `path.join(__dirname, 'epubs_descomprimidos', bookId,
relativePath)`. -/
def fullFilePath (dirname bookId relativePath : String) : String :=
  posixJoin [dirname, "epubs_descomprimidos", bookId, relativePath]

/-- `server.js` line 84: `path.join(__dirname, 'epubs_descomprimidos', bookId)`,
the tenant root the containment check compares against. -/
def safeBase (dirname bookId : String) : String :=
  posixJoin [dirname, "epubs_descomprimidos", bookId]

/-- Path-resolution block of the handler: build `fullFilePath`, and serve it
only when `fullFilePath.startsWith(safeBase)`; otherwise answer 400
`'Ruta de archivo no válida.'`. -/
def resolveEpubPath (dirname bookId relativePath : String) : Except String String :=
  if jsStartsWith (fullFilePath dirname bookId relativePath) (safeBase dirname bookId) then
    .ok (fullFilePath dirname bookId relativePath)
  else
    .error "Ruta de archivo no válida."

example : posixJoin ["/srv", "epubs_descomprimidos", "book123"] = "/srv/epubs_descomprimidos/book123" := by decide

example : fullFilePath "/srv" "book123" "/../book1234/x" = "/srv/epubs_descomprimidos/book1234/x" := by decide

example : resolveEpubPath "/srv" "book123" "/../book1234/x" = .ok "/srv/epubs_descomprimidos/book1234/x" := rfl

example : resolveEpubPath "/data" "book1" "/a/../../etc/passwd" = .error "Ruta de archivo no válida." := rfl

example : resolveEpubPath "/data" "book1" "/a/..//../x" = .error "Ruta de archivo no válida." := rfl

example : resolveEpubPath "/data" "book1" "/OEBPS/chapter1.xhtml" = .ok "/data/epubs_descomprimidos/book1/OEBPS/chapter1.xhtml" := rfl

example : resolveEpubPath "/data" "book1" "OEBPS/chapter1.xhtml" = .ok "/data/epubs_descomprimidos/book1/OEBPS/chapter1.xhtml" := rfl

example : validateToken (some "book1_userA_9999999999999_xyz") "book1" 1700000000000 = .allow := by decide

example : validateToken (some "book1_userA_1000_xyz") "book1" 2000 = .deny 403 msgExpiredOrInvalid := by decide

example : validateToken (some "book2_userA_9999999999999_xyz") "book1" 0 = .deny 403 msgInvalidOrMismatch := by decide

example : validateToken (some "book1") "book1" 0 = .deny 403 msgInvalidOrMismatch := by decide

example : validateToken (some "book1_userA_1000abc_xyz") "book1" 500 = .allow := by decide

example : parseIntJs "1000abc" = some 1000 := by decide

example : parseIntJs "abc" = none := by decide

example : parseIntJs "-5" = some (-5) := by decide

/-! ## Helper lemmas -/

theorem strPre_refl (l : List Char) : strPre l l = true := by
  induction l with
  | nil => rfl
  | cons a t ih => simp [strPre, ih]

theorem strPre_append (p q : List Char) : strPre p (p ++ q) = true := by
  induction p with
  | nil => rfl
  | cons a t ih => simp [strPre, ih]

theorem digit_not_ws (c : Char) (h : c.isDigit = true) : c.isWhitespace = false := by
  cases hw : c.isWhitespace
  · rfl
  · exfalso
    have hcs : ((c = ' ' ∨ c = '\t') ∨ c = '\x0d') ∨ c = '\n' := by
      simpa [Char.isWhitespace] using hw
    rcases hcs with ((rfl | rfl) | rfl) | rfl <;> exact absurd h (by decide)

theorem digit_ne_minus (c : Char) (h : c.isDigit = true) : c ≠ '-' := by
  intro he; subst he; exact absurd h (by decide)

theorem digit_ne_plus (c : Char) (h : c.isDigit = true) : c ≠ '+' := by
  intro he; subst he; exact absurd h (by decide)

theorem takeWhile_digits_append (ds : List Char) (c : Char) (rest : List Char)
    (hds : ∀ d ∈ ds, d.isDigit = true) (hc : c.isDigit = false) :
    (ds ++ c :: rest).takeWhile Char.isDigit = ds := by
  induction ds with
  | nil => simp [List.takeWhile_cons, hc]
  | cons a t ih =>
    have ha : a.isDigit = true := hds a (List.mem_cons_self a t)
    simp only [List.cons_append, List.takeWhile_cons, ha, if_true]
    rw [ih (fun d hd => hds d (List.mem_cons_of_mem a hd))]

/-- `parseInt` on a string that starts with a non-empty run of digits followed
by a non-digit returns the value of that digit run. -/
theorem parseIntChars_digit_lead (ds : List Char) (c : Char) (rest : List Char)
    (hne : ds ≠ []) (hds : ∀ d ∈ ds, d.isDigit = true) (hc : c.isDigit = false) :
    parseIntChars (ds ++ c :: rest) = some ((digitsToNat ds : Nat) : Int) := by
  obtain ⟨a, t, rfl⟩ := List.exists_cons_of_ne_nil hne
  have ha : a.isDigit = true := hds a (List.mem_cons_self a t)
  have htk : ((a :: t) ++ c :: rest).takeWhile Char.isDigit = a :: t :=
    takeWhile_digits_append (a :: t) c rest hds hc
  unfold parseIntChars
  rw [List.cons_append, List.dropWhile_cons, digit_not_ws a ha]
  simp only [Bool.false_eq_true, if_false]
  rw [if_neg (digit_ne_minus a ha), if_neg (digit_ne_plus a ha)]
  unfold parseDigits
  rw [← List.cons_append, htk]
  simp

/-- The combined length/book-id branch of the validator fires exactly on its
condition (for a non-empty token). -/
theorem validate_comb_deny (tok bookId : String) (now : Int) (hne : tok ≠ "")
    (hcomb : (jsSplit tok '_').length < 4 ∨ (jsSplit tok '_').getD 0 "" ≠ bookId) :
    validateToken (some tok) bookId now = .deny 403 msgInvalidOrMismatch := by
  simp only [validateToken]
  rw [if_neg hne, if_pos hcomb]

/-- After the combined check passes and the expiration parses, the validator
allows whenever `now` does not exceed the parsed expiration. -/
theorem validate_allow_of (tok bookId : String) (now : Int)
    (h4 : ¬ (jsSplit tok '_').length < 4)
    (h0 : (jsSplit tok '_').getD 0 "" = bookId)
    (e : Int) (hp : parseIntJs ((jsSplit tok '_').getD 2 "") = some e)
    (hn : ¬ now > e) :
    validateToken (some tok) bookId now = .allow := by
  have hne : tok ≠ "" := by
    intro h; subst h; exact h4 (by decide)
  simp only [validateToken]
  rw [if_neg hne, if_neg (by push_neg; exact ⟨Nat.not_lt.mp h4, h0⟩)]
  simp only [hp]
  rw [if_neg hn, if_neg (not_not_intro h0)]

/-- After the combined check passes and the expiration parses, the validator
denies with the expired/invalid message whenever `now` exceeds the parsed
expiration. -/
theorem validate_expired_of (tok bookId : String) (now : Int)
    (h4 : ¬ (jsSplit tok '_').length < 4)
    (h0 : (jsSplit tok '_').getD 0 "" = bookId)
    (e : Int) (hp : parseIntJs ((jsSplit tok '_').getD 2 "") = some e)
    (hn : now > e) :
    validateToken (some tok) bookId now = .deny 403 msgExpiredOrInvalid := by
  have hne : tok ≠ "" := by
    intro h; subst h; exact h4 (by decide)
  simp only [validateToken]
  rw [if_neg hne, if_neg (by push_neg; exact ⟨Nat.not_lt.mp h4, h0⟩)]
  simp only [hp]
  rw [if_pos hn]

/-- After the combined check passes, a `NaN` expiration (`parseInt` fails)
makes the validator deny with the expired/invalid message. -/
theorem validate_nan_deny (tok bookId : String) (now : Int)
    (h4 : ¬ (jsSplit tok '_').length < 4)
    (h0 : (jsSplit tok '_').getD 0 "" = bookId)
    (hp : parseIntJs ((jsSplit tok '_').getD 2 "") = none) :
    validateToken (some tok) bookId now = .deny 403 msgExpiredOrInvalid := by
  have hne : tok ≠ "" := by
    intro h; subst h; exact h4 (by decide)
  simp only [validateToken]
  rw [if_neg hne, if_neg (by push_neg; exact ⟨Nat.not_lt.mp h4, h0⟩)]
  simp only [hp]

/-! ## Claim theorems -/

/-- C2: whenever the token's embedded resource identity (segment 0 of the
`'_'`-split) differs from the URL's `bookId`, the validator never allows, and
for any actually-supplied (non-empty) token it denies with the 403 message of
the combined length/book-id branch — the branch the specification labels
`ResourceMismatch` — regardless of the current time and hence regardless of
the token's expiration field. -/
theorem token_resource_mismatch_denied (tok bookId : String) (now : Int)
    (h0 : (jsSplit tok '_').getD 0 "" ≠ bookId) :
    validateToken (some tok) bookId now ≠ .allow ∧
    (tok ≠ "" → validateToken (some tok) bookId now = .deny 403 msgInvalidOrMismatch) := by
  constructor
  · by_cases hne : tok = ""
    · subst hne
      exact (by decide : (Decision.deny 403 msgMissing) ≠ .allow)
    · rw [validate_comb_deny tok bookId now hne (Or.inr h0)]
      exact (by decide : (Decision.deny 403 msgInvalidOrMismatch) ≠ .allow)
  · intro hne
    exact validate_comb_deny tok bookId now hne (Or.inr h0)

/-- Witness for C2: token minted for `book2`, URL resource `book1`, with a
far-future (valid, unexpired) expiration field. -/
theorem token_resource_mismatch_denied_witness :
    validateToken (some "book2_userA_9999999999999_xyz") "book1" 1700000000000 ≠ .allow ∧
    validateToken (some "book2_userA_9999999999999_xyz") "book1" 1700000000000 =
      .deny 403 msgInvalidOrMismatch := by
  have h := token_resource_mismatch_denied "book2_userA_9999999999999_xyz" "book1"
    1700000000000 (by decide)
  exact ⟨h.1, h.2 (by decide)⟩

/-- C3: a token with at least 4 `'_'`-segments, whose segment 0 equals the
URL's resource identity, and whose segment 2 parses (JS `parseInt`) to an
expiration `e` with `now ≤ e`, is allowed. -/
theorem token_valid_allow (tok bookId : String) (now : Int)
    (h4 : 4 ≤ (jsSplit tok '_').length)
    (h0 : (jsSplit tok '_').getD 0 "" = bookId)
    (e : Int) (hp : parseIntJs ((jsSplit tok '_').getD 2 "") = some e)
    (hn : now ≤ e) :
    validateToken (some tok) bookId now = .allow :=
  validate_allow_of tok bookId now (Nat.not_lt.mpr h4) h0 e hp (by omega)

/-- Witness for C3: the spec's scenario 1 — token
`book1_userA_9999999999999_xyz`, URL resource `book1`, now 1700000000000. -/
theorem token_valid_allow_witness :
    validateToken (some "book1_userA_9999999999999_xyz") "book1" 1700000000000 = .allow :=
  token_valid_allow "book1_userA_9999999999999_xyz" "book1" 1700000000000 (by decide)
    (by decide) 9999999999999 (by decide) (by decide)

/-- C4 counterexample: the expiration segment `1000abc` is not a valid
non-negative decimal integer, yet the validator does not deny at all — at
`now = 500` the request is allowed (JS `parseInt` reads the `1000` prefix),
refuting `Deny(MalformedExpiration) for all values of the current time`. -/
theorem malformed_expiration_cex :
    (jsSplit "book1_userA_1000abc_xyz" '_').getD 2 "" = "1000abc" ∧
    (¬ ∀ c ∈ ("1000abc" : String).data, c.isDigit = true) ∧
    validateToken (some "book1_userA_1000abc_xyz") "book1" 500 = .allow :=
  ⟨by decide, by decide, by decide⟩

/-- C4 amended: only when `parseInt` yields `NaN` on segment 2 (no leading
digit run at all) does the validator deny, and it does so for every current
time — but with the same 403 message as the `Expired` case, not a distinct
`MalformedExpiration` reason. -/
theorem nan_expiration_denied (tok bookId : String) (now : Int)
    (h4 : 4 ≤ (jsSplit tok '_').length)
    (h0 : (jsSplit tok '_').getD 0 "" = bookId)
    (hp : parseIntJs ((jsSplit tok '_').getD 2 "") = none) :
    validateToken (some tok) bookId now = .deny 403 msgExpiredOrInvalid :=
  validate_nan_deny tok bookId now (Nat.not_lt.mpr h4) h0 hp

/-- Witness for the amended C4: expiration segment `abc` (no digit prefix) is
denied with the shared expired/invalid message. -/
theorem nan_expiration_denied_witness :
    validateToken (some "book1_userA_abc_xyz") "book1" 0 = .deny 403 msgExpiredOrInvalid :=
  nan_expiration_denied "book1_userA_abc_xyz" "book1" 0 (by decide) (by decide) (by decide)

/-- C5: for an otherwise-valid token whose expiration parses to `e`, a request
at `now = e` is allowed and a request at `now = e + 1` is denied via the
expiration branch (`currentTime > expirationTimestamp` is strict). -/
theorem expiration_boundary (tok bookId : String) (e : Int)
    (h4 : 4 ≤ (jsSplit tok '_').length)
    (h0 : (jsSplit tok '_').getD 0 "" = bookId)
    (hp : parseIntJs ((jsSplit tok '_').getD 2 "") = some e) :
    validateToken (some tok) bookId e = .allow ∧
    validateToken (some tok) bookId (e + 1) = .deny 403 msgExpiredOrInvalid :=
  ⟨validate_allow_of tok bookId e (Nat.not_lt.mpr h4) h0 e hp (by omega),
   validate_expired_of tok bookId (e + 1) (Nat.not_lt.mpr h4) h0 e hp (by omega)⟩

/-- Witness for C5: token `book1_userA_1000_xyz` is allowed at `now = 1000`
and denied at `now = 1001`. -/
theorem expiration_boundary_witness :
    validateToken (some "book1_userA_1000_xyz") "book1" 1000 = .allow ∧
    validateToken (some "book1_userA_1000_xyz") "book1" 1001 = .deny 403 msgExpiredOrInvalid := by
  have h := expiration_boundary "book1_userA_1000_xyz" "book1" 1000 (by decide) (by decide)
    (by decide)
  exact ⟨h.1, h.2⟩

/-- C6: every supplied (non-empty) token splitting into fewer than 4
`'_'`-segments is denied with the 403 message of the combined length/book-id
branch — the branch the specification labels `MalformedToken`. -/
theorem short_token_denied (tok bookId : String) (now : Int)
    (hne : tok ≠ "") (h4 : (jsSplit tok '_').length < 4) :
    validateToken (some tok) bookId now = .deny 403 msgInvalidOrMismatch :=
  validate_comb_deny tok bookId now hne (Or.inl h4)

/-- Witness for C6: the spec's scenario 4 — single-segment token `book1`. -/
theorem short_token_denied_witness :
    validateToken (some "book1") "book1" 0 = .deny 403 msgInvalidOrMismatch :=
  short_token_denied "book1" "book1" 0 (by decide) (by decide)

/-- C9: when segment 2 is a non-empty digit run followed by a non-digit
character, `parseInt` reads exactly the digit prefix, the token is not treated
as malformed, and the validator allows whenever the resource identity matches
and `now` does not exceed the numeric prefix. -/
theorem digit_prefix_expiration_allow (tok bookId : String) (now : Int)
    (ds rest : List Char) (c : Char)
    (h4 : 4 ≤ (jsSplit tok '_').length)
    (h0 : (jsSplit tok '_').getD 0 "" = bookId)
    (hseg : ((jsSplit tok '_').getD 2 "").data = ds ++ c :: rest)
    (hne : ds ≠ []) (hall : ∀ d ∈ ds, d.isDigit = true) (hc : c.isDigit = false)
    (hn : now ≤ (digitsToNat ds : Int)) :
    parseIntJs ((jsSplit tok '_').getD 2 "") = some ((digitsToNat ds : Nat) : Int) ∧
    validateToken (some tok) bookId now = .allow := by
  have hp : parseIntJs ((jsSplit tok '_').getD 2 "") = some ((digitsToNat ds : Nat) : Int) := by
    unfold parseIntJs
    rw [hseg]
    exact parseIntChars_digit_lead ds c rest hne hall hc
  exact ⟨hp, validate_allow_of tok bookId now (Nat.not_lt.mpr h4) h0 _ hp (by omega)⟩

/-- Witness for C9: segment 2 `1000abc` is read as 1000 and the token is
allowed at `now = 500`. -/
theorem digit_prefix_expiration_allow_witness :
    parseIntJs ((jsSplit "book1_userA_1000abc_xyz" '_').getD 2 "") = some 1000 ∧
    validateToken (some "book1_userA_1000abc_xyz") "book1" 500 = .allow := by
  have h := digit_prefix_expiration_allow "book1_userA_1000abc_xyz" "book1" 500
    ['1', '0', '0', '0'] ['b', 'c'] 'a' (by decide) (by decide) (by decide) (by decide)
    (by decide) (by decide) (by decide)
  exact ⟨h.1, h.2⟩

/-- C10: the second book-id comparison (`tokenBookId !== bookId` after the
expiration check) is unreachable — no input whatsoever makes the validator
return its denial message, because the combined first check already
guarantees segment 0 equals `bookId` on every path that reaches it. -/
theorem second_book_check_unreachable (userToken : Option String) (bookId : String) (now : Int) :
    validateToken userToken bookId now ≠ .deny 403 msgWrongBook := by
  rcases userToken with _ | tok
  · exact (by decide : (Decision.deny 403 msgMissing) ≠ .deny 403 msgWrongBook)
  · by_cases hne : tok = ""
    · subst hne
      exact (by decide : (Decision.deny 403 msgMissing) ≠ .deny 403 msgWrongBook)
    · by_cases hcomb : (jsSplit tok '_').length < 4 ∨ (jsSplit tok '_').getD 0 "" ≠ bookId
      · rw [validate_comb_deny tok bookId now hne hcomb]
        exact (by decide : (Decision.deny 403 msgInvalidOrMismatch) ≠ .deny 403 msgWrongBook)
      · push_neg at hcomb
        obtain ⟨h4, h0⟩ := hcomb
        cases hp : parseIntJs ((jsSplit tok '_').getD 2 "") with
        | none =>
          rw [validate_nan_deny tok bookId now (by omega) h0 hp]
          exact (by decide : (Decision.deny 403 msgExpiredOrInvalid) ≠ .deny 403 msgWrongBook)
        | some e =>
          by_cases hg : now > e
          · rw [validate_expired_of tok bookId now (by omega) h0 e hp hg]
            exact (by decide : (Decision.deny 403 msgExpiredOrInvalid) ≠ .deny 403 msgWrongBook)
          · rw [validate_allow_of tok bookId now (by omega) h0 e hp hg]
            exact (by decide : (Decision.allow : Decision) ≠ .deny 403 msgWrongBook)

/-- C1 (code-bug evidence): the containment check of the handler is a bare
string-prefix test, so the sibling directory `/srv/epubs_descomprimidos/book1234`
— which shares the tenant root `/srv/epubs_descomprimidos/book123` as a string
prefix but is outside it component-wise — is reachable: the canonicalized path
is neither the root nor under `root ++ "/"`, yet the resolver returns it as
`ok` instead of denying with `PathTraversal`. -/
theorem resolve_accepts_sibling_prefix_escape :
    safeBase "/srv" "book123" = "/srv/epubs_descomprimidos/book123" ∧
    fullFilePath "/srv" "book123" "/../book1234/x" = "/srv/epubs_descomprimidos/book1234/x" ∧
    fullFilePath "/srv" "book123" "/../book1234/x" ≠ safeBase "/srv" "book123" ∧
    strPre ((safeBase "/srv" "book123").data ++ ['/'])
      (fullFilePath "/srv" "book123" "/../book1234/x").data = false ∧
    resolveEpubPath "/srv" "book123" "/../book1234/x" =
      .ok "/srv/epubs_descomprimidos/book1234/x" :=
  ⟨by decide, by decide, by decide, by decide, rfl⟩

/-- C7: every sub-path whose canonicalization lands inside the tenant root
(equal to it, or below it component-wise) resolves successfully to the
canonicalized path. -/
theorem resolve_inside_root_ok (d b s : String)
    (h : fullFilePath d b s = safeBase d b ∨
         ∃ r : String, fullFilePath d b s = safeBase d b ++ "/" ++ r) :
    resolveEpubPath d b s = .ok (fullFilePath d b s) := by
  unfold resolveEpubPath
  have hsw : jsStartsWith (fullFilePath d b s) (safeBase d b) = true := by
    rcases h with h | ⟨r, h⟩
    · rw [h]
      unfold jsStartsWith
      exact strPre_refl _
    · rw [h]
      unfold jsStartsWith
      rw [String.data_append, String.data_append, List.append_assoc]
      exact strPre_append _ _
  rw [if_pos hsw]

/-- Witness for C7: `/OEBPS/./chapter1.xhtml` (with a redundant `.` segment)
under tenant root `/data/epubs_descomprimidos/book1` resolves to the canonical
`/data/epubs_descomprimidos/book1/OEBPS/chapter1.xhtml`. -/
theorem resolve_inside_root_ok_witness :
    resolveEpubPath "/data" "book1" "/OEBPS/./chapter1.xhtml" =
      .ok (fullFilePath "/data" "book1" "/OEBPS/./chapter1.xhtml") ∧
    fullFilePath "/data" "book1" "/OEBPS/./chapter1.xhtml" =
      "/data/epubs_descomprimidos/book1/OEBPS/chapter1.xhtml" :=
  ⟨resolve_inside_root_ok "/data" "book1" "/OEBPS/./chapter1.xhtml"
      (Or.inr ⟨"OEBPS/chapter1.xhtml", by decide⟩),
   by decide⟩

/-- C8: path resolution is deterministic — two resolutions of the same
`(dirname, bookId, subPath)` triple are equal, the same `ok` path on success
and the same rejection otherwise. -/
theorem resolve_deterministic (d b s : String) (r₁ r₂ : Except String String)
    (h₁ : r₁ = resolveEpubPath d b s) (h₂ : r₂ = resolveEpubPath d b s) :
    r₁ = r₂ :=
  h₁.trans h₂.symm

/-- Witness for C8: two resolutions of `/OEBPS/chapter1.xhtml` under
`/data/epubs_descomprimidos/book1` agree, on the concrete `ok` value. -/
theorem resolve_deterministic_witness :
    resolveEpubPath "/data" "book1" "/OEBPS/chapter1.xhtml" =
      resolveEpubPath "/data" "book1" "/OEBPS/chapter1.xhtml" ∧
    resolveEpubPath "/data" "book1" "/OEBPS/chapter1.xhtml" =
      .ok "/data/epubs_descomprimidos/book1/OEBPS/chapter1.xhtml" :=
  ⟨resolve_deterministic "/data" "book1" "/OEBPS/chapter1.xhtml" _ _ rfl rfl, rfl⟩

end LibroyPunto
